import Mathlib

/-!
Shallow embedding of `src/verify.py`, a Playwright-based verification runner
that launches a headless browser, navigates to a local HTML file, waits for
the readiness selector `#chart_div svg`, and writes a screenshot.

The script's interaction with the external browser library is modelled by an
environment `Env` recording, for one run, how each external operation behaves
(whether launch, navigation and each screenshot succeed, whether the selector
appears within the timeout, and which console/pageerror events the page
emits).  Running the script in an environment yields the ordered trace of
observable events together with the process outcome (normal exit or an
uncaught exception propagating out of `main`).
-/

namespace Verify

/-- Exceptions that the external browser library can raise in this script. -/
inductive Exc where
  | timeoutError
  | launchError
  | navigationError
  | screenshotError (path : String)
deriving Repr, DecidableEq

/-- The text of an exception, as interpolated by `print(f"... {e}")`.  The
strings are abstract stand-ins for the library's exception messages; the
script only ever embeds them into console lines. -/
def excMessage : Exc → String
  | Exc.timeoutError => "Timeout 60000ms exceeded."
  | Exc.launchError => "browser launch failed"
  | Exc.navigationError => "net::ERR_FILE_NOT_FOUND"
  | Exc.screenshotError p => "screenshot failed: " ++ p

/-- Observable events of one run, in program order.  A `screenshot p ok`
event is an attempted capture to path `p`; the file is written iff `ok`. -/
inductive Event where
  | launch
  | newPage
  | registerConsoleObserver
  | registerPageErrorObserver
  | goto (url : String)
  | waitForSelector (sel : String) (timeoutMs : Nat)
  | print (s : String)
  | screenshot (path : String) (ok : Bool)
  | closeBrowser
  | playwrightStop
deriving Repr, DecidableEq

/-- Process outcome: clean exit, or an exception propagating out of `main`
(re-raised by `asyncio.run`, terminating the process abnormally). -/
inductive Outcome where
  | normal
  | raised (e : Exc)
deriving Repr, DecidableEq

/-- Behaviour of the external world during one run. -/
structure Env where
  launchFails : Bool
  navFails : Bool
  selectorFound : Bool
  successShotFails : Bool
  errorShotFails : Bool
  consoleMsgs : List String
  pageErrors : List String
deriving Repr

/-- The URL of `page.goto('file:///app/CIC-test-naei-linechart/v2.4-shared-CIC-testdb/index.html')`. -/
def targetUrl : String :=
  "file:///app/CIC-test-naei-linechart/v2.4-shared-CIC-testdb/index.html"

/-- The readiness selector of `page.wait_for_selector`. -/
def readinessSelector : String := "#chart_div svg"

/-- The explicit bound `timeout=60000` (milliseconds) of the readiness wait. -/
def waitTimeoutMs : Nat := 60000

/-- The handler `lambda msg: print(f"CONSOLE: {msg.text}")` registered with
`page.on("console", ...)`: the console line it produces for a message. -/
def consoleHandlerLine (msg : String) : String := "CONSOLE: " ++ msg

/-- The handler `lambda err: print(f"PAGE ERROR: {err}")` registered with
`page.on("pageerror", ...)`: the console line it produces for a page error. -/
def pageErrorHandlerLine (err : String) : String := "PAGE ERROR: " ++ err

/-- The line of `print("SUCCESS: Chart SVG found!")`. -/
def successLine : String := "SUCCESS: Chart SVG found!"

/-- The line of `print(f"ERROR: Failed to find chart SVG. {e}")`. -/
def errorLine (e : Exc) : String :=
  "ERROR: Failed to find chart SVG. " ++ excMessage e

/-- The call `await page.wait_for_selector('#chart_div svg', timeout=60000)`: returns
once the selector matches, or signals a `TimeoutError` when the timeout
elapses without a match. -/
def wait_for_selector (found : Bool) : Except Exc Unit :=
  if found then Except.ok () else Except.error Exc.timeoutError

/-- The `except Exception as e:` suite: print the error line, then attempt
the diagnostic screenshot to `screenshot_error.png`. -/
def exceptTrace (env : Env) (e : Exc) : List Event :=
  [Event.print (errorLine e),
   Event.screenshot "screenshot_error.png" (!env.errorShotFails)]

/-- Whether the `except` suite itself raises: the diagnostic screenshot is
the only statement in it that can, and nothing catches that exception. -/
def exceptResult (env : Env) : Option Exc :=
  if env.errorShotFails then some (Exc.screenshotError "screenshot_error.png")
  else none

/-- The `try:/except Exception as e:` statement of `main` (lines 16-24):
wait for the selector, print the success line and capture `screenshot.png`;
any exception raised in the `try` suite is caught and routed to the
`except` suite.  Returns the events of the statement and `some e` iff an
exception `e` escapes it. -/
def tryExceptPart (env : Env) : List Event × Option Exc :=
  let waitEv := Event.waitForSelector readinessSelector waitTimeoutMs
  match wait_for_selector env.selectorFound with
  | Except.error e => ([waitEv] ++ exceptTrace env e, exceptResult env)
  | Except.ok _ =>
    if env.successShotFails then
      ([waitEv, Event.print successLine, Event.screenshot "screenshot.png" false]
        ++ exceptTrace env (Exc.screenshotError "screenshot.png"),
       exceptResult env)
    else
      ([waitEv, Event.print successLine, Event.screenshot "screenshot.png" true],
       none)

/-- The body of `async with async_playwright() as p:` (lines 6-26): launch,
open a page, register the two observers, navigate, run the try/except
statement, and close the browser.  Forwarded console/pageerror lines are
emitted by the page while it loads and runs, i.e. after a successful
navigation. -/
def mainBody (env : Env) : List Event × Outcome :=
  if env.launchFails then ([], Outcome.raised Exc.launchError)
  else
    let pre : List Event :=
      [Event.launch, Event.newPage,
       Event.registerConsoleObserver, Event.registerPageErrorObserver]
    if env.navFails then
      (pre ++ [Event.goto targetUrl], Outcome.raised Exc.navigationError)
    else
      let forwarded : List Event :=
        env.consoleMsgs.map (fun m => Event.print (consoleHandlerLine m))
          ++ env.pageErrors.map (fun e => Event.print (pageErrorHandlerLine e))
      let t := tryExceptPart env
      match t.2 with
      | some e =>
        (pre ++ [Event.goto targetUrl] ++ forwarded ++ t.1, Outcome.raised e)
      | none =>
        (pre ++ [Event.goto targetUrl] ++ forwarded ++ t.1 ++ [Event.closeBrowser],
         Outcome.normal)

/-- One run of the script: `asyncio.run(main())`.  The
`async with async_playwright()` context manager stops the Playwright driver
on every exit path, normal or exceptional (its scoped-release semantics),
and then re-raises any pending exception. -/
def run (env : Env) : List Event × Outcome :=
  ((mainBody env).1 ++ [Event.playwrightStop], (mainBody env).2)

/-- The console line printed by an event, if any. -/
def printLine : Event → Option String
  | Event.print s => some s
  | _ => none

/-- The screenshot file written by an event, if any: a capture writes its
file exactly when it succeeds. -/
def shotFile : Event → Option String
  | Event.screenshot p true => some p
  | _ => none

/-- The console lines printed during a trace, in order. -/
def consoleOutput (t : List Event) : List String :=
  t.filterMap printLine

/-- The screenshot files actually written during a trace, in order. -/
def filesWritten (t : List Event) : List String :=
  t.filterMap shotFile

/-- The browser resource is released during the trace: either by the
explicit `browser.close()` or by the Playwright context manager stopping
the driver (which shuts down every browser it launched). -/
def browserReleased (t : List Event) : Prop :=
  Event.closeBrowser ∈ t ∨ Event.playwrightStop ∈ t

/-- Process exit code: 0 on a clean exit, 1 when an uncaught exception
terminates the interpreter. -/
def exitCode : Outcome → Nat
  | Outcome.normal => 0
  | Outcome.raised _ => 1

/-- Whether an event registers a page observer. -/
def isRegister : Event → Bool
  | Event.registerConsoleObserver => true
  | Event.registerPageErrorObserver => true
  | _ => false

/-- Playwright's default wait timeout, used by variant A (milliseconds). -/
def defaultWaitTimeoutMs : Nat := 30000

/-- Modelled from the spec: variant A of the Verification Runner is
described in the spec (no observers, default wait timeout, success
screenshot to `linechart_verification.png`, console lines
`Navigating to file://<path>` then `Screenshot saved to
linechart_verification.png`) but its source file is not under `src/`, which
holds only variant B.  `path` is the absolute path of the target file and
`found` records whether the readiness selector matches within the default
timeout; variant A has no error handling, so a timeout propagates. -/
def runVariantA (path : String) (found : Bool) : List Event × Outcome :=
  let url := "file://" ++ path
  let pre : List Event :=
    [Event.launch, Event.newPage,
     Event.print ("Navigating to " ++ url), Event.goto url]
  let waitEv := Event.waitForSelector readinessSelector defaultWaitTimeoutMs
  if found then
    (pre ++ [waitEv,
             Event.screenshot "linechart_verification.png" true,
             Event.print "Screenshot saved to linechart_verification.png",
             Event.closeBrowser, Event.playwrightStop],
     Outcome.normal)
  else
    (pre ++ [waitEv, Event.playwrightStop], Outcome.raised Exc.timeoutError)


/-! ### Helper lemmas about traces -/

theorem print_mem_consoleOutput {s : String} {t : List Event}
    (h : Event.print s ∈ t) : s ∈ consoleOutput t :=
  List.mem_filterMap.2 ⟨Event.print s, h, rfl⟩

theorem screenshot_mem_filesWritten {p : String} {t : List Event}
    (h : Event.screenshot p true ∈ t) : p ∈ filesWritten t :=
  List.mem_filterMap.2 ⟨Event.screenshot p true, h, rfl⟩

theorem filterMap_shotFile_map_print (f : String → String) (l : List String) :
    List.filterMap shotFile (l.map fun m => Event.print (f m)) = [] := by
  induction l with
  | nil => rfl
  | cons a l ih => simp [List.filterMap_cons, shotFile, ih]

theorem filterMap_shotFile_comp_print (f : String → String) (l : List String) :
    List.filterMap (shotFile ∘ fun m => Event.print (f m)) l = [] := by
  induction l with
  | nil => rfl
  | cons a l ih => simp [List.filterMap_cons, shotFile, Function.comp, ih]

theorem countP_isRegister_map_print (f : String → String) (l : List String) :
    (l.map fun m => Event.print (f m)).countP isRegister = 0 := by
  induction l with
  | nil => rfl
  | cons a l ih => simp [List.countP_cons, isRegister, ih]

/-- Closed form of the run's outcome as a function of the environment. -/
theorem run_outcome (env : Env) :
    (run env).2 =
      if env.launchFails then Outcome.raised Exc.launchError
      else if env.navFails then Outcome.raised Exc.navigationError
      else if (!env.selectorFound || env.successShotFails) && env.errorShotFails then
        Outcome.raised (Exc.screenshotError "screenshot_error.png")
      else Outcome.normal := by
  cases h1 : env.launchFails <;> cases h2 : env.navFails <;>
    cases h3 : env.selectorFound <;> cases h4 : env.successShotFails <;>
      cases h5 : env.errorShotFails <;>
        simp [run, mainBody, tryExceptPart, wait_for_selector, exceptResult,
          h1, h2, h3, h4, h5]

/-- Closed form of the set of screenshot files a run writes. -/
theorem filesWritten_run (env : Env) :
    filesWritten (run env).1 =
      if env.launchFails then []
      else if env.navFails then []
      else if env.selectorFound && !env.successShotFails then ["screenshot.png"]
      else if env.errorShotFails then [] else ["screenshot_error.png"] := by
  cases h1 : env.launchFails <;> cases h2 : env.navFails <;>
    cases h3 : env.selectorFound <;> cases h4 : env.successShotFails <;>
      cases h5 : env.errorShotFails <;>
        simp [run, mainBody, tryExceptPart, wait_for_selector, exceptTrace,
          exceptResult, filesWritten, shotFile, filterMap_shotFile_map_print,
          filterMap_shotFile_comp_print, h1, h2, h3, h4, h5]

/-- Same environment with different page-emitted console and error events. -/
def withPageEvents (env : Env) (xs ys : List String) : Env :=
  Env.mk env.launchFails env.navFails env.selectorFound env.successShotFails
    env.errorShotFails xs ys

/-- Concrete happy-path environment: everything succeeds, the selector is
found, the page emits no console or pageerror events. -/
def envSuccess : Env := ⟨false, false, true, false, false, [], []⟩

/-- Environment where the selector never appears but everything else
succeeds. -/
def envTimeout : Env := ⟨false, false, false, false, false, [], []⟩

/-- Environment where the selector never appears and the diagnostic
screenshot to `screenshot_error.png` also fails. -/
def envTimeoutShotFail : Env := ⟨false, false, false, false, true, [], []⟩

/-- Environment where navigation fails. -/
def envNavFail : Env := ⟨false, true, true, false, false, [], []⟩

/-- Environment where the selector is found but the success screenshot to
`screenshot.png` fails. -/
def envSuccessShotFail : Env := ⟨false, false, true, true, false, [], []⟩

/-! ### The claims -/

/-- C1 counterexample: in a run where navigation succeeds and the selector
never matches, but the diagnostic screenshot itself fails, the exception is
still caught and reported, yet `screenshot_error.png` is not written and the
run does not exit normally — refuting the claim's universal form. -/
theorem C1_counterexample :
    envTimeoutShotFail.navFails = false ∧
    envTimeoutShotFail.selectorFound = false ∧
    "screenshot_error.png" ∉ filesWritten (run envTimeoutShotFail).1 ∧
    (run envTimeoutShotFail).2 ≠ Outcome.normal := by
  decide

/-- C1 (amended): when navigation succeeds and the selector never matches,
the timeout exception is caught locally: the error line is printed and the
diagnostic screenshot to `screenshot_error.png` is attempted; provided that
capture succeeds, the file is written and the run exits normally. -/
theorem C1_timeout_recovered (env : Env) (h1 : env.launchFails = false)
    (h2 : env.navFails = false) (h3 : env.selectorFound = false) :
    errorLine Exc.timeoutError ∈ consoleOutput (run env).1 ∧
    Event.screenshot "screenshot_error.png" (!env.errorShotFails) ∈ (run env).1 ∧
    (env.errorShotFails = false →
      "screenshot_error.png" ∈ filesWritten (run env).1 ∧
      (run env).2 = Outcome.normal) := by
  refine ⟨print_mem_consoleOutput ?_, ?_,
    fun h4 => ⟨screenshot_mem_filesWritten ?_, ?_⟩⟩
  · cases h4 : env.errorShotFails <;>
      simp [run, mainBody, tryExceptPart, wait_for_selector, exceptTrace,
        exceptResult, h1, h2, h3, h4]
  · cases h4 : env.errorShotFails <;>
      simp [run, mainBody, tryExceptPart, wait_for_selector, exceptTrace,
        exceptResult, h1, h2, h3, h4]
  · simp [run, mainBody, tryExceptPart, wait_for_selector, exceptTrace,
      exceptResult, h1, h2, h3, h4]
  · simp [run, mainBody, tryExceptPart, wait_for_selector, exceptTrace,
      exceptResult, h1, h2, h3, h4]

theorem C1_witness :
    errorLine Exc.timeoutError ∈ consoleOutput (run envTimeout).1 ∧
    Event.screenshot "screenshot_error.png" (!envTimeout.errorShotFails) ∈
      (run envTimeout).1 ∧
    (envTimeout.errorShotFails = false →
      "screenshot_error.png" ∈ filesWritten (run envTimeout).1 ∧
      (run envTimeout).2 = Outcome.normal) :=
  C1_timeout_recovered envTimeout rfl rfl rfl

/-- C2 counterexample: in a run where the selector matches but the success
screenshot fails, the SUCCESS line is printed yet `screenshot.png` is not
written — refuting the claim's universal form. -/
theorem C2_counterexample :
    envSuccessShotFail.selectorFound = true ∧
    successLine ∈ consoleOutput (run envSuccessShotFail).1 ∧
    "screenshot.png" ∉ filesWritten (run envSuccessShotFail).1 := by
  decide

/-- C2 (amended): when the selector matches within the timeout, the SUCCESS
line is printed and the capture to `screenshot.png` is attempted; provided
that capture succeeds, the file is written, `browser.close()` runs, and the
run exits normally. -/
theorem C2_success_path (env : Env) (h1 : env.launchFails = false)
    (h2 : env.navFails = false) (h3 : env.selectorFound = true) :
    successLine ∈ consoleOutput (run env).1 ∧
    Event.screenshot "screenshot.png" (!env.successShotFails) ∈ (run env).1 ∧
    (env.successShotFails = false →
      "screenshot.png" ∈ filesWritten (run env).1 ∧
      Event.closeBrowser ∈ (run env).1 ∧
      (run env).2 = Outcome.normal) := by
  refine ⟨print_mem_consoleOutput ?_, ?_,
    fun h4 => ⟨screenshot_mem_filesWritten ?_, ?_, ?_⟩⟩
  · cases h4 : env.successShotFails <;>
      cases h5 : env.errorShotFails <;>
        simp [run, mainBody, tryExceptPart, wait_for_selector, exceptTrace,
          exceptResult, h1, h2, h3, h4, h5]
  · cases h4 : env.successShotFails <;>
      cases h5 : env.errorShotFails <;>
        simp [run, mainBody, tryExceptPart, wait_for_selector, exceptTrace,
          exceptResult, h1, h2, h3, h4, h5]
  · simp [run, mainBody, tryExceptPart, wait_for_selector, exceptTrace,
      exceptResult, h1, h2, h3, h4]
  · simp [run, mainBody, tryExceptPart, wait_for_selector, exceptTrace,
      exceptResult, h1, h2, h3, h4]
  · simp [run, mainBody, tryExceptPart, wait_for_selector, exceptTrace,
      exceptResult, h1, h2, h3, h4]

theorem C2_witness :
    successLine ∈ consoleOutput (run envSuccess).1 ∧
    Event.screenshot "screenshot.png" (!envSuccess.successShotFails) ∈
      (run envSuccess).1 ∧
    (envSuccess.successShotFails = false →
      "screenshot.png" ∈ filesWritten (run envSuccess).1 ∧
      Event.closeBrowser ∈ (run envSuccess).1 ∧
      (run envSuccess).2 = Outcome.normal) :=
  C2_success_path envSuccess rfl rfl rfl

/-- C3: a failed navigation propagates out of `main`: the run raises
`navigationError`, exits non-zero, and writes no screenshot file. -/
theorem C3_navigation_failure (env : Env) (h1 : env.launchFails = false)
    (h2 : env.navFails = true) :
    (run env).2 = Outcome.raised Exc.navigationError ∧
    exitCode (run env).2 ≠ 0 ∧
    filesWritten (run env).1 = [] := by
  refine ⟨?_, ?_, ?_⟩ <;>
    simp [run, mainBody, h1, h2, exitCode, filesWritten, shotFile]

theorem C3_witness :
    (run envNavFail).2 = Outcome.raised Exc.navigationError ∧
    exitCode (run envNavFail).2 ≠ 0 ∧
    filesWritten (run envNavFail).1 = [] :=
  C3_navigation_failure envNavFail rfl rfl

/-- C4: once the browser is launched, it is released on every exit path:
either the explicit `browser.close()` runs, or the surrounding
`async with async_playwright()` context manager stops the driver. -/
theorem C4_browser_released (env : Env) (h : Event.launch ∈ (run env).1) :
    browserReleased (run env).1 :=
  Or.inr (by simp [run])

theorem C4_witness : browserReleased (run envSuccess).1 :=
  C4_browser_released envSuccess (by decide)

/-- C5: the readiness wait uses selector `#chart_div svg` with an explicit
60-second (60000 ms) bound, succeeds when the selector is found, signals
`timeoutError` otherwise, and that exception is what reaches the error
branch. -/
theorem C5_readiness_wait (env : Env) (h1 : env.launchFails = false)
    (h2 : env.navFails = false) :
    readinessSelector = "#chart_div svg" ∧
    waitTimeoutMs = 60 * 1000 ∧
    wait_for_selector true = Except.ok () ∧
    wait_for_selector false = Except.error Exc.timeoutError ∧
    Event.waitForSelector readinessSelector waitTimeoutMs ∈ (run env).1 ∧
    (env.selectorFound = false →
      errorLine Exc.timeoutError ∈ consoleOutput (run env).1) := by
  refine ⟨rfl, rfl, rfl, rfl, ?_, fun h3 => ?_⟩
  · cases h3 : env.selectorFound <;>
      cases h4 : env.successShotFails <;>
        cases h5 : env.errorShotFails <;>
          simp [run, mainBody, tryExceptPart, wait_for_selector, exceptTrace,
            exceptResult, h1, h2, h3, h4, h5]
  · refine print_mem_consoleOutput ?_
    cases h4 : env.errorShotFails <;>
      simp [run, mainBody, tryExceptPart, wait_for_selector, exceptTrace,
        exceptResult, h1, h2, h3, h4]

theorem C5_witness :
    readinessSelector = "#chart_div svg" ∧
    waitTimeoutMs = 60 * 1000 ∧
    wait_for_selector true = Except.ok () ∧
    wait_for_selector false = Except.error Exc.timeoutError ∧
    Event.waitForSelector readinessSelector waitTimeoutMs ∈ (run envTimeout).1 ∧
    (envTimeout.selectorFound = false →
      errorLine Exc.timeoutError ∈ consoleOutput (run envTimeout).1) :=
  C5_readiness_wait envTimeout rfl rfl


/-- C6: in the concrete scenario (variant A run against a local file whose
chart renders, so the readiness selector matches), the file
`linechart_verification.png` is written, the console prints the navigation
line followed by the saved-path line, and the run exits normally. -/
theorem C6_variantA_scenario (path : String) :
    "linechart_verification.png" ∈ filesWritten (runVariantA path true).1 ∧
    List.Sublist
      ["Navigating to " ++ ("file://" ++ path),
       "Screenshot saved to linechart_verification.png"]
      (consoleOutput (runVariantA path true).1) ∧
    (runVariantA path true).2 = Outcome.normal := by
  refine ⟨?_, ?_, rfl⟩
  · simp [runVariantA, filesWritten, shotFile]
  · have h : consoleOutput (runVariantA path true).1 =
        ["Navigating to " ++ ("file://" ++ path),
         "Screenshot saved to linechart_verification.png"] := by
      simp [runVariantA, consoleOutput, printLine]
    rw [h]

/-- C9: the `try` suite covers the success screenshot: when the selector is
found but the capture to `screenshot.png` raises, the exception is caught —
both the SUCCESS line and the error line are printed in the same run, and
the diagnostic screenshot is attempted. -/
theorem C9_error_branch_after_success (env : Env) (h1 : env.launchFails = false)
    (h2 : env.navFails = false) (h3 : env.selectorFound = true)
    (h4 : env.successShotFails = true) :
    successLine ∈ consoleOutput (run env).1 ∧
    errorLine (Exc.screenshotError "screenshot.png") ∈ consoleOutput (run env).1 ∧
    Event.screenshot "screenshot_error.png" (!env.errorShotFails) ∈ (run env).1 ∧
    (env.errorShotFails = false → (run env).2 = Outcome.normal) := by
  refine ⟨print_mem_consoleOutput ?_, print_mem_consoleOutput ?_, ?_, fun h5 => ?_⟩
  · cases h5 : env.errorShotFails <;>
      simp [run, mainBody, tryExceptPart, wait_for_selector, exceptTrace,
        exceptResult, h1, h2, h3, h4, h5]
  · cases h5 : env.errorShotFails <;>
      simp [run, mainBody, tryExceptPart, wait_for_selector, exceptTrace,
        exceptResult, h1, h2, h3, h4, h5]
  · cases h5 : env.errorShotFails <;>
      simp [run, mainBody, tryExceptPart, wait_for_selector, exceptTrace,
        exceptResult, h1, h2, h3, h4, h5]
  · simp [run, mainBody, tryExceptPart, wait_for_selector, exceptTrace,
      exceptResult, h1, h2, h3, h4, h5]

theorem C9_witness :
    successLine ∈ consoleOutput (run envSuccessShotFail).1 ∧
    errorLine (Exc.screenshotError "screenshot.png") ∈
      consoleOutput (run envSuccessShotFail).1 ∧
    Event.screenshot "screenshot_error.png" (!envSuccessShotFail.errorShotFails) ∈
      (run envSuccessShotFail).1 ∧
    (envSuccessShotFail.errorShotFails = false →
      (run envSuccessShotFail).2 = Outcome.normal) :=
  C9_error_branch_after_success envSuccessShotFail rfl rfl rfl rfl

/-- C10: when the diagnostic screenshot in the `except` suite itself raises,
the exception propagates out of `main`: `browser.close()` is never executed,
cleanup falls to the context manager alone, and the run terminates
abnormally. -/
theorem C10_diagnostic_failure_propagates (env : Env) (h1 : env.launchFails = false)
    (h2 : env.navFails = false) (h3 : env.errorShotFails = true)
    (h4 : env.selectorFound = false ∨ env.successShotFails = true) :
    (run env).2 = Outcome.raised (Exc.screenshotError "screenshot_error.png") ∧
    Event.closeBrowser ∉ (run env).1 ∧
    Event.playwrightStop ∈ (run env).1 ∧
    (run env).2 ≠ Outcome.normal := by
  have hcases : env.selectorFound = false ∨
      (env.selectorFound = true ∧ env.successShotFails = true) := by
    cases h5 : env.selectorFound with
    | false => exact Or.inl rfl
    | true =>
      refine Or.inr ⟨rfl, ?_⟩
      cases h4 with
      | inl h => rw [h5] at h; exact absurd h (by simp)
      | inr h => exact h
  refine ⟨?_, ?_, ?_, ?_⟩ <;>
    rcases hcases with h5 | ⟨h5, h6⟩ <;>
      simp_all [run, mainBody, tryExceptPart, wait_for_selector, exceptTrace,
        exceptResult]

theorem C10_witness :
    (run envTimeoutShotFail).2 =
      Outcome.raised (Exc.screenshotError "screenshot_error.png") ∧
    Event.closeBrowser ∉ (run envTimeoutShotFail).1 ∧
    Event.playwrightStop ∈ (run envTimeoutShotFail).1 ∧
    (run envTimeoutShotFail).2 ≠ Outcome.normal :=
  C10_diagnostic_failure_propagates envTimeoutShotFail rfl rfl rfl (Or.inl rfl)


theorem countP_isRegister_comp_print (f : String → String) (l : List String) :
    List.countP (isRegister ∘ fun m => Event.print (f m)) l = 0 := by
  induction l with
  | nil => rfl
  | cons a l ih => simp [List.countP_cons, isRegister, Function.comp, ih]

/-- C7: exactly two observers are registered, both before navigation (the
first five events of every launched run are fixed); the handlers produce
the `CONSOLE: ` and `PAGE ERROR: ` lines; and the page-emitted events they
forward have no effect on the run's outcome or written files. -/
theorem C7_passive_observers (env : Env) (h1 : env.launchFails = false) :
    ((run env).1.countP isRegister) = 2 ∧
    (run env).1.take 5 =
      [Event.launch, Event.newPage, Event.registerConsoleObserver,
       Event.registerPageErrorObserver, Event.goto targetUrl] ∧
    (∀ m, consoleHandlerLine m = "CONSOLE: " ++ m) ∧
    (∀ e, pageErrorHandlerLine e = "PAGE ERROR: " ++ e) ∧
    (∀ xs ys, (run (withPageEvents env xs ys)).2 = (run env).2 ∧
      filesWritten (run (withPageEvents env xs ys)).1 =
        filesWritten (run env).1) := by
  refine ⟨?_, ?_, fun m => rfl, fun e => rfl, fun xs ys => ⟨?_, ?_⟩⟩
  · cases h2 : env.navFails <;>
      cases h3 : env.selectorFound <;>
        cases h4 : env.successShotFails <;>
          cases h5 : env.errorShotFails <;>
            simp [run, mainBody, tryExceptPart, wait_for_selector, exceptTrace,
              exceptResult, List.countP_append, List.countP_cons, isRegister,
              countP_isRegister_map_print, countP_isRegister_comp_print,
              h1, h2, h3, h4, h5]
  · cases h2 : env.navFails <;>
      cases h3 : env.selectorFound <;>
        cases h4 : env.successShotFails <;>
          cases h5 : env.errorShotFails <;>
            simp [run, mainBody, tryExceptPart, wait_for_selector, exceptTrace,
              exceptResult, h1, h2, h3, h4, h5]
  · rw [run_outcome, run_outcome]; rfl
  · rw [filesWritten_run, filesWritten_run]; rfl

theorem C7_witness :
    ((run envSuccess).1.countP isRegister) = 2 ∧
    (run envSuccess).1.take 5 =
      [Event.launch, Event.newPage, Event.registerConsoleObserver,
       Event.registerPageErrorObserver, Event.goto targetUrl] ∧
    (∀ m, consoleHandlerLine m = "CONSOLE: " ++ m) ∧
    (∀ e, pageErrorHandlerLine e = "PAGE ERROR: " ++ e) ∧
    (∀ xs ys, (run (withPageEvents envSuccess xs ys)).2 = (run envSuccess).2 ∧
      filesWritten (run (withPageEvents envSuccess xs ys)).1 =
        filesWritten (run envSuccess).1) :=
  C7_passive_observers envSuccess rfl

/-- C8 counterexample: a run that reaches the readiness wait, catches the
timeout (the error line is printed) but whose diagnostic capture fails,
writes neither screenshot file — refuting the claim's "exactly when an
exception is caught" for `screenshot_error.png`. -/
theorem C8_counterexample :
    errorLine Exc.timeoutError ∈ consoleOutput (run envTimeoutShotFail).1 ∧
    "screenshot_error.png" ∉ filesWritten (run envTimeoutShotFail).1 := by
  decide

/-- C8 (amended): in every run that reaches the readiness wait, at most one
of the two screenshot files is written; `screenshot.png` exactly when the
`try` suite completes; `screenshot_error.png` exactly when an exception is
caught and the diagnostic capture itself succeeds. -/
theorem C8_artifact_dichotomy (env : Env) (h1 : env.launchFails = false)
    (h2 : env.navFails = false) :
    ¬("screenshot.png" ∈ filesWritten (run env).1 ∧
      "screenshot_error.png" ∈ filesWritten (run env).1) ∧
    ("screenshot.png" ∈ filesWritten (run env).1 ↔
      env.selectorFound = true ∧ env.successShotFails = false) ∧
    ("screenshot_error.png" ∈ filesWritten (run env).1 ↔
      (env.selectorFound = false ∨ env.successShotFails = true) ∧
        env.errorShotFails = false) := by
  cases h3 : env.selectorFound <;>
    cases h4 : env.successShotFails <;>
      cases h5 : env.errorShotFails <;>
        simp [filesWritten_run, h1, h2, h3, h4, h5]

theorem C8_witness :
    ¬("screenshot.png" ∈ filesWritten (run envSuccess).1 ∧
      "screenshot_error.png" ∈ filesWritten (run envSuccess).1) ∧
    ("screenshot.png" ∈ filesWritten (run envSuccess).1 ↔
      envSuccess.selectorFound = true ∧ envSuccess.successShotFails = false) ∧
    ("screenshot_error.png" ∈ filesWritten (run envSuccess).1 ↔
      (envSuccess.selectorFound = false ∨ envSuccess.successShotFails = true) ∧
        envSuccess.errorShotFails = false) :=
  C8_artifact_dichotomy envSuccess rfl rfl

end Verify
